import Mathlib

set_option maxRecDepth 100000

/-!
Verification of the `ax` benchmark-metric adapter
(`src/ax/benchmark/metrics/benchmark.py`) and of the JSON-store
encoder/decoder registries (`src/ax/storage/json_store/registry.py`)
against their natural-language specification.

The Python classes `BenchmarkMetric` and `GroundTruthBenchmarkMetric`
are embedded as an inductive `Metric`.  Python object (reference)
identity is made explicit: every constructor call consumes a fresh
allocation id from a counter, and `pyIs` compares those ids, which
under the freshness discipline coincides with Python's `is`.

The registry tables are embedded verbatim, in source order, with Python
types represented by their class names and registered functions by
their function names.  The generic encode/decode dispatchers themselves
(`ax/storage/json_store/encoders.py` / `decoders.py`) are not part of
the source excerpt and are modelled from the spec.
-/

namespace AxBenchmark

/-- Modelled from the spec: `GroundTruthMetricMixin.get_ground_truth_name`
lives in `ax/benchmark/metrics/base.py`, which is not part of the source
excerpt.  The spec says the ground-truth metric's name is "derived
deterministically from its original metric's name (prefix/suffix
convention)"; we model it as appending a fixed ground-truth suffix. -/
def get_ground_truth_name (name : String) : String :=
  name ++ "__GROUND_TRUTH"

/-- The attributes stored by `BenchmarkMetric.__init__`
(`benchmark.py` lines 33-58): `name`, `lower_is_better`,
`observe_noise_sd`, `outcome_index`. -/
structure MetricData where
  name : String
  lower_is_better : Bool
  observe_noise_sd : Bool
  outcome_index : Option Int
deriving DecidableEq, Repr

/-- A live metric object.  `objId` is the Python object identity
(allocation id); `Metric.base` is a direct instance of class
`BenchmarkMetric`, `Metric.groundTruth` an instance of the subclass
`GroundTruthBenchmarkMetric`, which additionally stores
`original_metric` (`benchmark.py` line 92). -/
inductive Metric where
  | base (objId : Nat) (data : MetricData)
  | groundTruth (objId : Nat) (data : MetricData) (original : Metric)
deriving DecidableEq, Repr

def Metric.objId : Metric → Nat
  | .base i _ => i
  | .groundTruth i _ _ => i

def Metric.data : Metric → MetricData
  | .base _ d => d
  | .groundTruth _ d _ => d

def Metric.name (m : Metric) : String := m.data.name

def Metric.lower_is_better (m : Metric) : Bool := m.data.lower_is_better

def Metric.observe_noise_sd (m : Metric) : Bool := m.data.observe_noise_sd

def Metric.outcome_index (m : Metric) : Option Int := m.data.outcome_index

/-- The `original_metric` attribute: present only on
`GroundTruthBenchmarkMetric` instances. -/
def Metric.original_metric? : Metric → Option Metric
  | .base _ _ => none
  | .groundTruth _ _ orig => some orig

/-- `self.__class__.__name__`. -/
def Metric.className : Metric → String
  | .base _ _ => "BenchmarkMetric"
  | .groundTruth _ _ _ => "GroundTruthBenchmarkMetric"

/-- Python reference identity (`is`): two objects are identical iff they
are the same allocation. -/
def pyIs (a b : Metric) : Bool := a.objId == b.objId

/-- `GroundTruthBenchmarkMetric.__init__` (`benchmark.py` lines 80-92):
calls `BenchmarkMetric.__init__` with
`name = get_ground_truth_name(original_metric)`,
`lower_is_better = original_metric.lower_is_better`,
`observe_noise_sd = False`,
`outcome_index = original_metric.outcome_index`,
then stores `original_metric`.  `objId` is the fresh identity of the new
object. -/
def GroundTruthBenchmarkMetric.init (objId : Nat) (original : Metric) : Metric :=
  Metric.groundTruth objId
    { name := get_ground_truth_name original.name
      lower_is_better := original.lower_is_better
      observe_noise_sd := false
      outcome_index := original.outcome_index }
    original

/-- `make_ground_truth_metric`, with the allocation counter threaded
through.  `BenchmarkMetric.make_ground_truth_metric` (lines 74-76)
returns `GroundTruthBenchmarkMetric(original_metric=self)`, a fresh
object; the override in `GroundTruthBenchmarkMetric` (lines 108-110)
returns `self` and allocates nothing. -/
def make_ground_truth_metric : Metric → Nat → Metric × Nat
  | .base objId d, counter =>
      (GroundTruthBenchmarkMetric.init counter (.base objId d), counter + 1)
  | .groundTruth objId d orig, counter =>
      (.groundTruth objId d orig, counter)

/-- The metrics reachable in Python: `Metric.base` values come from
`BenchmarkMetric.__init__` with caller-chosen attributes, and every
`GroundTruthBenchmarkMetric` was built by
`GroundTruthBenchmarkMetric.__init__` from an existing metric. -/
inductive Constructed : Metric → Prop where
  | base (objId : Nat) (d : MetricData) : Constructed (Metric.base objId d)
  | gt (objId : Nat) (orig : Metric) : Constructed orig →
      Constructed (GroundTruthBenchmarkMetric.init objId orig)

/-- The argument tuple of one call to the Fetch Bridge
(`_fetch_trial_data` in `ax/benchmark/metrics/utils.py`). -/
structure FetchCall where
  trial : Nat
  metric_name : String
  outcome_index : Option Int
  include_noise_sd : Bool
  ground_truth : Bool
deriving DecidableEq, Repr

/-- The error raised on extra keyword arguments (the spec's
`UnsupportedArgumentError`; the source raises `NotImplementedError`
carrying the argument names and the class name, lines 61-65 and
94-99). -/
structure UnsupportedArgumentError where
  className : String
  argNames : List String
deriving DecidableEq, Repr

/-- `fetch_trial_data` of both classes (`benchmark.py` lines 60-72 and
94-106), parameterized by the Fetch Bridge `bridge` (external
collaborator).  Besides the result it returns the trace of bridge
calls made.  If any keyword arguments are passed the error is raised
before the bridge is contacted; otherwise it delegates once, passing
`include_noise_sd = self.observe_noise_sd, ground_truth = False` for a
plain `BenchmarkMetric` and `include_noise_sd = False,
ground_truth = True` for a `GroundTruthBenchmarkMetric`, and returns
the bridge's result unchanged. -/
def fetch_trial_data {R : Type} (bridge : FetchCall → R) (m : Metric)
    (trial : Nat) (kwargs : List String) :
    Except UnsupportedArgumentError R × List FetchCall :=
  match m with
  | .base _ d =>
      if kwargs.length > 0 then
        (Except.error ⟨"BenchmarkMetric", kwargs⟩, [])
      else
        let call : FetchCall := ⟨trial, d.name, d.outcome_index, d.observe_noise_sd, false⟩
        (Except.ok (bridge call), [call])
  | .groundTruth _ d _ =>
      if kwargs.length > 0 then
        (Except.error ⟨"GroundTruthBenchmarkMetric", kwargs⟩, [])
      else
        let call : FetchCall := ⟨trial, d.name, d.outcome_index, false, true⟩
        (Except.ok (bridge call), [call])

/-- A sample metric used for concrete evaluations. -/
def sampleData : MetricData :=
  { name := "accuracy", lower_is_better := false,
    observe_noise_sd := true, outcome_index := none }

end AxBenchmark

namespace AxJsonStore

/-!
The four registry tables of `src/ax/storage/json_store/registry.py`.
Python types are represented by their class names (all classes imported
by `registry.py` are distinct and distinctly named, so name equality
coincides with type identity), and the registered encoder/decoder
functions by their function names.  Entries are listed in source
order, which is significant for the class-encoder registry.
-/

/-- `CORE_ENCODER_REGISTRY` (`registry.py` lines 128-183): exact
concrete type to encoder function. -/
def CORE_ENCODER_REGISTRY : List (String × String) := [
  ("Arm", "arm_to_dict"),
  ("AndEarlyStoppingStrategy", "logical_early_stopping_strategy_to_dict"),
  ("AugmentedBraninMetric", "metric_to_dict"),
  ("AugmentedHartmann6Metric", "metric_to_dict"),
  ("BatchTrial", "batch_to_dict"),
  ("BoTorchModel", "botorch_model_to_dict"),
  ("BotorchTestProblemMetric", "metric_to_dict"),
  ("BotorchTestProblemRunner", "runner_to_dict"),
  ("BraninMetric", "metric_to_dict"),
  ("BraninTimestampMapMetric", "metric_to_dict"),
  ("ChoiceParameter", "choice_parameter_to_dict"),
  ("Data", "data_to_dict"),
  ("Experiment", "experiment_to_dict"),
  ("FactorialMetric", "metric_to_dict"),
  ("FixedParameter", "fixed_parameter_to_dict"),
  ("GammaPrior", "botorch_component_to_dict"),
  ("GenerationStep", "generation_step_to_dict"),
  ("GenerationStrategy", "generation_strategy_to_dict"),
  ("GeneratorRun", "generator_run_to_dict"),
  ("Hartmann6Metric", "metric_to_dict"),
  ("Interval", "botorch_component_to_dict"),
  ("ListSurrogate", "surrogate_to_dict"),
  ("L2NormMetric", "metric_to_dict"),
  ("MapData", "map_data_to_dict"),
  ("MapKeyInfo", "map_key_info_to_dict"),
  ("MapMetric", "metric_to_dict"),
  ("Metric", "metric_to_dict"),
  ("MultiObjective", "multi_objective_to_dict"),
  ("MultiObjectiveOptimizationConfig", "multi_objective_optimization_config_to_dict"),
  ("MultiTypeExperiment", "multi_type_experiment_to_dict"),
  ("PercentileEarlyStoppingStrategy", "percentile_early_stopping_strategy_to_dict"),
  ("SklearnMetric", "metric_to_dict"),
  ("ChemistryMetric", "metric_to_dict"),
  ("NegativeBraninMetric", "metric_to_dict"),
  ("NoisyFunctionMetric", "metric_to_dict"),
  ("Objective", "objective_to_dict"),
  ("ObjectiveThreshold", "outcome_constraint_to_dict"),
  ("OptimizationConfig", "optimization_config_to_dict"),
  ("OrEarlyStoppingStrategy", "logical_early_stopping_strategy_to_dict"),
  ("OrderConstraint", "order_parameter_constraint_to_dict"),
  ("OutcomeConstraint", "outcome_constraint_to_dict"),
  ("ParameterConstraint", "parameter_constraint_to_dict"),
  ("RangeParameter", "range_parameter_to_dict"),
  ("ScalarizedObjective", "scalarized_objective_to_dict"),
  ("SearchSpace", "search_space_to_dict"),
  ("HierarchicalSearchSpace", "search_space_to_dict"),
  ("SimpleBenchmarkProblem", "benchmark_problem_to_dict"),
  ("SumConstraint", "sum_parameter_constraint_to_dict"),
  ("Surrogate", "surrogate_to_dict"),
  ("SyntheticRunner", "runner_to_dict"),
  ("ThresholdEarlyStoppingStrategy", "threshold_early_stopping_strategy_to_dict"),
  ("Trial", "trial_to_dict"),
  ("ObservationFeatures", "observation_features_to_dict"),
  ("WinsorizationConfig", "winsorization_config_to_dict")]

/-- `CORE_CLASS_ENCODER_REGISTRY` (`registry.py` lines 189-197): base
type to encoder function, for values that are classes rather than
instances; consulted in iteration order. -/
def CORE_CLASS_ENCODER_REGISTRY : List (String × String) := [
  ("Acquisition", "botorch_modular_to_dict"),
  ("AcquisitionFunction", "botorch_modular_to_dict"),
  ("Likelihood", "botorch_modular_to_dict"),
  ("Module", "botorch_modular_to_dict"),
  ("MarginalLogLikelihood", "botorch_modular_to_dict"),
  ("Model", "botorch_modular_to_dict"),
  ("Transform", "transform_type_to_dict")]

/-- `CORE_DECODER_REGISTRY` (`registry.py` lines 199-275): type-name
string to target type. -/
def CORE_DECODER_REGISTRY : List (String × String) := [
  ("AbandonedArm", "AbandonedArm"),
  ("AndEarlyStoppingStrategy", "AndEarlyStoppingStrategy"),
  ("AugmentedBraninMetric", "AugmentedBraninMetric"),
  ("AugmentedHartmann6Metric", "AugmentedHartmann6Metric"),
  ("Arm", "Arm"),
  ("BatchTrial", "BatchTrial"),
  ("AggregatedBenchmarkResult", "AggregatedBenchmarkResult"),
  ("BenchmarkMethod", "BenchmarkMethod"),
  ("BenchmarkProblem", "BenchmarkProblem"),
  ("BenchmarkResult", "BenchmarkResult"),
  ("BoTorchModel", "BoTorchModel"),
  ("BotorchTestProblemMetric", "BotorchTestProblemMetric"),
  ("BotorchTestProblemRunner", "BotorchTestProblemRunner"),
  ("BraninMetric", "BraninMetric"),
  ("BraninTimestampMapMetric", "BraninTimestampMapMetric"),
  ("ChemistryMetric", "ChemistryMetric"),
  ("ChemistryProblemType", "ChemistryProblemType"),
  ("ChoiceParameter", "ChoiceParameter"),
  ("ComparisonOp", "ComparisonOp"),
  ("Data", "Data"),
  ("DataType", "DataType"),
  ("DomainType", "DomainType"),
  ("Experiment", "Experiment"),
  ("FactorialMetric", "FactorialMetric"),
  ("FixedParameter", "FixedParameter"),
  ("GammaPrior", "GammaPrior"),
  ("GenerationStrategy", "GenerationStrategy"),
  ("GenerationStep", "GenerationStep"),
  ("GeneratorRun", "GeneratorRun"),
  ("GeneratorRunStruct", "GeneratorRunStruct"),
  ("Hartmann6Metric", "Hartmann6Metric"),
  ("HierarchicalSearchSpace", "HierarchicalSearchSpace"),
  ("Interval", "Interval"),
  ("ListSurrogate", "ListSurrogate"),
  ("L2NormMetric", "L2NormMetric"),
  ("MapData", "MapData"),
  ("MapMetric", "MapMetric"),
  ("MapKeyInfo", "MapKeyInfo"),
  ("Metric", "Metric"),
  ("Models", "Models"),
  ("MultiObjective", "MultiObjective"),
  ("MultiObjectiveBenchmarkProblem", "MultiObjectiveBenchmarkProblem"),
  ("MultiObjectiveOptimizationConfig", "MultiObjectiveOptimizationConfig"),
  ("MultiTypeExperiment", "MultiTypeExperiment"),
  ("NegativeBraninMetric", "NegativeBraninMetric"),
  ("NoisyFunctionMetric", "NoisyFunctionMetric"),
  ("Objective", "Objective"),
  ("ObjectiveThreshold", "ObjectiveThreshold"),
  ("OptimizationConfig", "OptimizationConfig"),
  ("OrEarlyStoppingStrategy", "OrEarlyStoppingStrategy"),
  ("OrderConstraint", "OrderConstraint"),
  ("OutcomeConstraint", "OutcomeConstraint"),
  ("ParameterConstraint", "ParameterConstraint"),
  ("ParameterConstraintType", "ParameterConstraintType"),
  ("ParameterType", "ParameterType"),
  ("PercentileEarlyStoppingStrategy", "PercentileEarlyStoppingStrategy"),
  ("RangeParameter", "RangeParameter"),
  ("ScalarizedObjective", "ScalarizedObjective"),
  ("SchedulerOptions", "SchedulerOptions"),
  ("ScoredBenchmarkResult", "ScoredBenchmarkResult"),
  ("SearchSpace", "SearchSpace"),
  ("SimpleBenchmarkProblem", "SimpleBenchmarkProblem"),
  ("SingleObjectiveBenchmarkProblem", "SingleObjectiveBenchmarkProblem"),
  ("SklearnDataset", "SklearnDataset"),
  ("SklearnMetric", "SklearnMetric"),
  ("SklearnModelType", "SklearnModelType"),
  ("SumConstraint", "SumConstraint"),
  ("Surrogate", "Surrogate"),
  ("SyntheticRunner", "SyntheticRunner"),
  ("Trial", "Trial"),
  ("TrialType", "TrialType"),
  ("TrialStatus", "TrialStatus"),
  ("ThresholdEarlyStoppingStrategy", "ThresholdEarlyStoppingStrategy"),
  ("ObservationFeatures", "ObservationFeatures"),
  ("WinsorizationConfig", "WinsorizationConfig")]

/-- `CORE_CLASS_DECODER_REGISTRY` (`registry.py` lines 279-287):
parametrized type-name string to decoder function, for values that are
classes rather than instances. -/
def CORE_CLASS_DECODER_REGISTRY : List (String × String) := [
  ("Type[Acquisition]", "class_from_json"),
  ("Type[AcquisitionFunction]", "class_from_json"),
  ("Type[Likelihood]", "class_from_json"),
  ("Type[Module]", "class_from_json"),
  ("Type[MarginalLogLikelihood]", "class_from_json"),
  ("Type[Model]", "class_from_json"),
  ("Type[Transform]", "transform_type_from_json")]

/-- The form of a class-reference discriminant: `"Type[<BaseName>]"`. -/
def typeKey (baseName : String) : String := "Type[" ++ baseName ++ "]"

/-- Registry lookup by key (Python `registry[key]` /
`registry.get(key)`). -/
def lookupEntry (reg : List (String × String)) (key : String) : Option String :=
  (reg.find? (fun p => p.1 == key)).map Prod.snd

/-- The decoder name corresponding to a concrete type: the `"__type"`
discriminant the encoder writes (spec 4.2: "the *decoder* name
corresponding to the object's concrete type"). -/
def decoderNameOf (ty : String) : Option String :=
  (CORE_DECODER_REGISTRY.find? (fun p => p.2 == ty)).map Prod.fst

/-!
Modelled from the spec: the generic encoder/decoder dispatchers
(`object_to_json` / `object_from_json` in
`ax/storage/json_store/encoders.py` and `decoders.py`) are not part of
the source excerpt; only their registry tables are.  Following spec
sections 4.2-4.3, a live object is a tree (`PyObj`) of typed nodes with
named fields whose values are primitives or nested objects, and an
encoded document has the same shape with the `"__type"` discriminant in
place of the runtime type.  The encoder dispatches on the exact
concrete type (the ancestor-registry fallback concerns only
class-valued fields and types outside the exact registry, which are
outside the round-trip claim's scope and are mapped to the encode-time
error), tags the document with the type's decoder name, and encodes
fields recursively; the decoder reads the discriminant, resolves the
target type in `CORE_DECODER_REGISTRY`, decodes fields depth-first and
reconstructs the node, failing on an unknown discriminant.
-/

mutual
/-- Modelled from the spec: a live object — a primitive value or a
typed node with named fields. -/
inductive PyObj where
  | prim (v : String)
  | node (typeName : String) (fields : FieldList)
/-- Modelled from the spec: the ordered named fields of an object. -/
inductive FieldList where
  | nil
  | cons (fieldName : String) (value : PyObj) (rest : FieldList)
end

mutual
/-- Modelled from the spec: the Encoder Dispatcher (spec 4.2).  An
object whose exact type has no entry fails with `UnregisteredTypeError`;
otherwise the document is tagged with the type's decoder name and the
fields are encoded recursively. -/
def encodeObj : PyObj → Except String PyObj
  | .prim v => .ok (.prim v)
  | .node ty fs =>
      match CORE_ENCODER_REGISTRY.find? (fun p => p.1 == ty) with
      | some _ =>
          match decoderNameOf ty with
          | some n =>
              match encodeFields fs with
              | .ok efs => .ok (.node n efs)
              | .error e => .error e
          | none => .error ("UnknownTypeNameError: " ++ ty)
      | none => .error ("UnregisteredTypeError: " ++ ty)
/-- Modelled from the spec: field-by-field encoding, in order. -/
def encodeFields : FieldList → Except String FieldList
  | .nil => .ok .nil
  | .cons k v rest =>
      match encodeObj v, encodeFields rest with
      | .ok ev, .ok erest => .ok (.cons k ev erest)
      | .error e, _ => .error e
      | _, .error e => .error e
end

mutual
/-- Modelled from the spec: the Decoder Dispatcher (spec 4.3).  The
`"__type"` discriminant is resolved in `CORE_DECODER_REGISTRY` (failing
with `UnknownTypeNameError` if absent) and the fields are decoded
depth-first, children before parent. -/
def decodeObj : PyObj → Except String PyObj
  | .prim v => .ok (.prim v)
  | .node n fs =>
      match lookupEntry CORE_DECODER_REGISTRY n with
      | some target =>
          match decodeFields fs with
          | .ok dfs => .ok (.node target dfs)
          | .error e => .error e
      | none => .error ("UnknownTypeNameError: " ++ n)
/-- Modelled from the spec: field-by-field decoding, in order. -/
def decodeFields : FieldList → Except String FieldList
  | .nil => .ok .nil
  | .cons k v rest =>
      match decodeObj v, decodeFields rest with
      | .ok dv, .ok drest => .ok (.cons k dv drest)
      | .error e, _ => .error e
      | _, .error e => .error e
end

mutual
/-- Every node of the object is an instance of a type registered in the
exact-type encoder registry. -/
def registeredObj : PyObj → Bool
  | .prim _ => true
  | .node ty fs => CORE_ENCODER_REGISTRY.any (fun p => p.1 == ty) && registeredFields fs
/-- All field values are of registered types. -/
def registeredFields : FieldList → Bool
  | .nil => true
  | .cons _ v rest => registeredObj v && registeredFields rest
end

/-- A sample registered object graph with a nested document-valued
field, used for concrete evaluations. -/
def sampleObj : PyObj :=
  .node "Experiment"
    (.cons "optimization_config"
      (.node "OptimizationConfig" (.cons "objective" (.prim "o") .nil))
      (.cons "name" (.prim "exp") .nil))

end AxJsonStore

namespace AxBenchmark

/-- C1 (counterexample): evaluating the spec's test expression
`metric.make_ground_truth_metric().make_ground_truth_metric() is
metric.make_ground_truth_metric()` left to right on a plain
`BenchmarkMetric` compares two distinct allocations: each call of
`BenchmarkMetric.make_ground_truth_metric` constructs a fresh
`GroundTruthBenchmarkMetric`, so the left side is the first wrapper and
the right side a second, non-identical wrapper. -/
theorem c1_not_reference_idempotent_cex :
    (let metric := Metric.base 0 sampleData
     let s1 := make_ground_truth_metric metric 1
     let s2 := make_ground_truth_metric s1.1 s1.2
     let s3 := make_ground_truth_metric metric s2.2
     pyIs s2.1 s3.1 = false) := by decide

/-- C1 (amended): the ground-truth transform is idempotent on its
results: applying `make_ground_truth_metric` to the metric returned by a
previous call returns that very object (`is`-identical) and allocates
nothing; in particular `make_ground_truth_metric` on a
`GroundTruthBenchmarkMetric` returns that same instance rather than a
new wrapper. -/
theorem c1_idempotent_on_results (m : Metric) (c c' : Nat) :
    make_ground_truth_metric (make_ground_truth_metric m c).1 c' =
      ((make_ground_truth_metric m c).1, c') ∧
    pyIs (make_ground_truth_metric (make_ground_truth_metric m c).1 c').1
      (make_ground_truth_metric m c).1 = true ∧
    ∀ objId d orig, make_ground_truth_metric (Metric.groundTruth objId d orig) c =
      (Metric.groundTruth objId d orig, c) := by
  cases m <;>
    exact ⟨rfl, by simp [pyIs, make_ground_truth_metric, GroundTruthBenchmarkMetric.init,
      Metric.objId], fun _ _ _ => rfl⟩

/-- C2: `fetch_trial_data` with a non-empty set of extra keyword
arguments returns the unsupported-argument error at once and the Fetch
Bridge call trace is empty, on both `BenchmarkMetric` and
`GroundTruthBenchmarkMetric`; with zero extra keyword arguments no such
error is raised. -/
theorem c2_extra_kwargs_rejected {R : Type} (bridge : FetchCall → R) (m : Metric)
    (trial : Nat) (kwargs : List String) (h : kwargs ≠ []) :
    fetch_trial_data bridge m trial kwargs =
      (Except.error ⟨m.className, kwargs⟩, []) ∧
    ∃ r, (fetch_trial_data bridge m trial []).1 = Except.ok r := by
  have hlen : 0 < kwargs.length := List.length_pos.mpr h
  cases m with
  | base i d =>
      constructor
      · simp [fetch_trial_data, hlen, Metric.className]
      · exact ⟨_, rfl⟩
  | groundTruth i d o =>
      constructor
      · simp [fetch_trial_data, hlen, Metric.className]
      · exact ⟨_, rfl⟩

/-- Witness for C2 at a concrete metric, trial and keyword argument. -/
theorem c2_extra_kwargs_rejected_witness :
    fetch_trial_data (fun call => call.trial) (Metric.base 0 sampleData) 5 ["extra_kw"] =
      (Except.error ⟨"BenchmarkMetric", ["extra_kw"]⟩, []) ∧
    ∃ r, (fetch_trial_data (fun call => call.trial) (Metric.base 0 sampleData) 5 []).1 =
      Except.ok r :=
  c2_extra_kwargs_rejected (fun call => call.trial) (Metric.base 0 sampleData) 5
    ["extra_kw"] (by decide)

/-- C3: every `GroundTruthBenchmarkMetric` ever constructed has
`observe_noise_sd = false`, and the metric returned by
`make_ground_truth_metric` always has `observe_noise_sd = false`,
whatever the original metric's setting. -/
theorem c3_ground_truth_never_observes_noise (m : Metric) (h : Constructed m) :
    (∀ objId d orig, m = Metric.groundTruth objId d orig → d.observe_noise_sd = false) ∧
    ∀ c, ((make_ground_truth_metric m c).1).observe_noise_sd = false := by
  induction h with
  | base objId d =>
      exact ⟨fun _ _ _ hh => Metric.noConfusion hh, fun c => rfl⟩
  | gt objId orig horig ih =>
      refine ⟨fun i d o hh => ?_, fun c => rfl⟩
      unfold GroundTruthBenchmarkMetric.init at hh
      injection hh with h1 h2 h3
      subst h2
      rfl

/-- Witness for C3 at a concrete metric with `observe_noise_sd = true`. -/
theorem c3_ground_truth_never_observes_noise_witness :
    ((make_ground_truth_metric (Metric.base 0 sampleData) 1).1).observe_noise_sd = false :=
  (c3_ground_truth_never_observes_noise (Metric.base 0 sampleData)
    (Constructed.base 0 sampleData)).2 1

/-- C4: with no extra keyword arguments, `fetch_trial_data` delegates to
the Fetch Bridge exactly once — `BenchmarkMetric` with
`(trial, self.name, self.outcome_index, include_noise_sd =
self.observe_noise_sd, ground_truth = False)`, and
`GroundTruthBenchmarkMetric` with `(trial, self.name,
self.outcome_index, include_noise_sd = False, ground_truth = True)` —
and returns the bridge's result unchanged. -/
theorem c4_fetch_delegates_exactly_once {R : Type} (bridge : FetchCall → R) (trial : Nat) :
    (∀ objId d,
      fetch_trial_data bridge (Metric.base objId d) trial [] =
        (Except.ok (bridge ⟨trial, d.name, d.outcome_index, d.observe_noise_sd, false⟩),
          [⟨trial, d.name, d.outcome_index, d.observe_noise_sd, false⟩])) ∧
    ∀ objId d orig,
      fetch_trial_data bridge (Metric.groundTruth objId d orig) trial [] =
        (Except.ok (bridge ⟨trial, d.name, d.outcome_index, false, true⟩),
          [⟨trial, d.name, d.outcome_index, false, true⟩]) :=
  ⟨fun _ _ => rfl, fun _ _ _ => rfl⟩

/-- C9 (counterexample): the name of `make_ground_truth_metric`'s result
is not a function of the original metric's name alone once ground-truth
instances (which are `BenchmarkMetric` instances by subclassing) are
admitted: a plain metric named `"a__GROUND_TRUTH"` and a ground-truth
metric carrying the same name map to different names, because the
ground-truth metric returns itself while the plain metric gets the
suffix appended again. -/
theorem c9_name_not_pure_in_name_alone_cex :
    (let m1 := Metric.base 1 { name := "a__GROUND_TRUTH", lower_is_better := false,
                               observe_noise_sd := true, outcome_index := none }
     let m2 := GroundTruthBenchmarkMetric.init 2
       (Metric.base 0 { name := "a", lower_is_better := false,
                        observe_noise_sd := true, outcome_index := none })
     m1.name = m2.name ∧
       ((make_ground_truth_metric m1 3).1).name ≠ ((make_ground_truth_metric m2 3).1).name) := by
  decide

/-- C9 (amended): for two metrics of the same concrete class, the name
of the metric returned by `make_ground_truth_metric` depends only on the
original metric's name: equal names map to equal names. -/
theorem c9_ground_truth_name_deterministic (m1 m2 : Metric) (c1 c2 : Nat)
    (hclass : m1.className = m2.className) (hname : m1.name = m2.name) :
    ((make_ground_truth_metric m1 c1).1).name =
      ((make_ground_truth_metric m2 c2).1).name := by
  cases m1 with
  | base i1 d1 =>
      cases m2 with
      | base i2 d2 =>
          show get_ground_truth_name d1.name = get_ground_truth_name d2.name
          rw [show d1.name = d2.name from hname]
      | groundTruth i2 d2 o2 =>
          exact absurd (show ("BenchmarkMetric" : String) = "GroundTruthBenchmarkMetric"
            from hclass) (by decide)
  | groundTruth i1 d1 o1 =>
      cases m2 with
      | base i2 d2 =>
          exact absurd (show ("GroundTruthBenchmarkMetric" : String) = "BenchmarkMetric"
            from hclass) (by decide)
      | groundTruth i2 d2 o2 => exact hname

/-- Witness for C9 at two concrete same-class, same-name metrics. -/
theorem c9_ground_truth_name_deterministic_witness :
    ((make_ground_truth_metric (Metric.base 0 sampleData) 1).1).name =
      ((make_ground_truth_metric
          (Metric.base 7 { sampleData with lower_is_better := true }) 2).1).name :=
  c9_ground_truth_name_deterministic (Metric.base 0 sampleData)
    (Metric.base 7 { sampleData with lower_is_better := true }) 1 2 rfl rfl

/-- C10 (counterexample): for a `BenchmarkMetric` `m` that is itself a
`GroundTruthBenchmarkMetric`, `g = m.make_ground_truth_metric()` is `m`
itself, so `g.original_metric` is the metric `m` originally wrapped, not
`m`: the `original_metric`-records-`m` clause fails. -/
theorem c10_original_metric_not_self_cex :
    (let m := GroundTruthBenchmarkMetric.init 1 (Metric.base 0 sampleData)
     let g := (make_ground_truth_metric m 2).1
     g.lower_is_better = m.lower_is_better ∧ g.outcome_index = m.outcome_index ∧
       g.original_metric? ≠ some m) := by decide

/-- C10 (amended): for a plain `BenchmarkMetric` `m`, the metric
`g = m.make_ground_truth_metric()` preserves `lower_is_better` and
`outcome_index` and records `m` itself in `g.original_metric`; for a
`GroundTruthBenchmarkMetric`, `make_ground_truth_metric` returns the
metric itself, so every attribute, `original_metric` included, is
unchanged. -/
theorem c10_ground_truth_frame (objId : Nat) (d : MetricData) (c : Nat) :
    (((make_ground_truth_metric (Metric.base objId d) c).1).lower_is_better =
        (Metric.base objId d).lower_is_better ∧
      ((make_ground_truth_metric (Metric.base objId d) c).1).outcome_index =
        (Metric.base objId d).outcome_index ∧
      ((make_ground_truth_metric (Metric.base objId d) c).1).original_metric? =
        some (Metric.base objId d)) ∧
    ∀ d' orig, (make_ground_truth_metric (Metric.groundTruth objId d' orig) c).1 =
      Metric.groundTruth objId d' orig :=
  ⟨⟨rfl, rfl, rfl⟩, fun _ _ => rfl⟩

end AxBenchmark

namespace AxJsonStore

/-- C5: no concrete type appears simultaneously as a key of the
exact-type encoder registry and as a key of the class encoder registry:
the two key sets are disjoint. -/
theorem c5_encoder_registries_disjoint (t : String)
    (h : t ∈ CORE_ENCODER_REGISTRY.map Prod.fst) :
    t ∉ CORE_CLASS_ENCODER_REGISTRY.map Prod.fst := by
  revert t
  decide

/-- Witness for C5 at the key `"Arm"`. -/
theorem c5_encoder_registries_disjoint_witness :
    "Arm" ∉ CORE_CLASS_ENCODER_REGISTRY.map Prod.fst :=
  c5_encoder_registries_disjoint "Arm" (by decide)

/-- C6: every key of the exact-type encoder registry has an entry of the
decoder registry whose target is exactly that type, so a document tagged
with the type's own decoder name resolves back to it. -/
theorem c6_every_encoder_key_decodable (t : String)
    (h : t ∈ CORE_ENCODER_REGISTRY.map Prod.fst) :
    ∃ p ∈ CORE_DECODER_REGISTRY, p.2 = t := by
  revert t
  decide

/-- Witness for C6 at the key `"Arm"`. -/
theorem c6_every_encoder_key_decodable_witness :
    ∃ p ∈ CORE_DECODER_REGISTRY, p.2 = "Arm" :=
  c6_every_encoder_key_decodable "Arm" (by decide)

/-- C7: every key of the class decoder registry has the form
`"Type[<BaseName>]"` for a base name that is a key of the class encoder
registry, and conversely every class encoder key `B` yields a class
decoder key `"Type[B]"`. -/
theorem c7_class_registries_matched :
    (∀ k ∈ CORE_CLASS_DECODER_REGISTRY.map Prod.fst,
        ∃ b ∈ CORE_CLASS_ENCODER_REGISTRY.map Prod.fst, k = typeKey b) ∧
    ∀ b ∈ CORE_CLASS_ENCODER_REGISTRY.map Prod.fst,
        typeKey b ∈ CORE_CLASS_DECODER_REGISTRY.map Prod.fst := by
  decide

/-- Witness for C7 at the base class `Model`. -/
theorem c7_class_registries_matched_witness :
    (∃ b ∈ CORE_CLASS_ENCODER_REGISTRY.map Prod.fst, "Type[Model]" = typeKey b) ∧
    typeKey "Model" ∈ CORE_CLASS_DECODER_REGISTRY.map Prod.fst :=
  ⟨c7_class_registries_matched.1 "Type[Model]" (by decide),
   c7_class_registries_matched.2 "Model" (by decide)⟩

/-- Every exact-type encoder key decodes to itself: its decoder name is
its own name, and the decoder registry maps that name back to it
(checked entry by entry over the registries). -/
theorem encoder_keys_decode_identity :
    ∀ p ∈ CORE_ENCODER_REGISTRY,
      decoderNameOf p.1 = some p.1 ∧ lookupEntry CORE_DECODER_REGISTRY p.1 = some p.1 := by
  decide

theorem except_bind_ok {α β : Type} {x : Except String α} {f : α → Except String β} {b : β}
    (h : x.bind f = Except.ok b) : ∃ a, x = Except.ok a ∧ f a = Except.ok b := by
  cases x with
  | error e => simp [Except.bind] at h
  | ok a => exact ⟨a, rfl, h⟩

mutual
theorem roundtrip_obj_aux (x : PyObj) (h : registeredObj x = true) :
    (encodeObj x).bind decodeObj = Except.ok x := by
  cases x with
  | prim v => rfl
  | node ty fs =>
      rw [registeredObj, Bool.and_eq_true] at h
      obtain ⟨hany, hfs⟩ := h
      obtain ⟨p, hp, hpty⟩ := List.any_eq_true.mp hany
      have hpty' : p.1 = ty := by simpa using hpty
      obtain ⟨hdec, hlook⟩ := encoder_keys_decode_identity p hp
      rw [hpty'] at hdec hlook
      have hsome : (CORE_ENCODER_REGISTRY.find? (fun q => q.1 == ty)).isSome = true := by
        rw [List.find?_isSome]
        exact ⟨p, hp, hpty⟩
      obtain ⟨q, hq⟩ := Option.isSome_iff_exists.mp hsome
      obtain ⟨efs, hefs, hdfs⟩ := except_bind_ok (roundtrip_fields_aux fs hfs)
      rw [encodeObj, hq, hdec, hefs]
      show decodeObj (.node ty efs) = Except.ok (.node ty fs)
      rw [decodeObj, hlook, hdfs]
theorem roundtrip_fields_aux (fs : FieldList) (h : registeredFields fs = true) :
    (encodeFields fs).bind decodeFields = Except.ok fs := by
  cases fs with
  | nil => rfl
  | cons k v rest =>
      rw [registeredFields, Bool.and_eq_true] at h
      obtain ⟨hv, hrest⟩ := h
      obtain ⟨ev, hev, hdv⟩ := except_bind_ok (roundtrip_obj_aux v hv)
      obtain ⟨erest, herest, hdrest⟩ := except_bind_ok (roundtrip_fields_aux rest hrest)
      rw [encodeFields, hev, herest]
      show decodeFields (.cons k ev erest) = Except.ok (.cons k v rest)
      rw [decodeFields, hdv, hdrest]
end

/-- C8: decoding is the exact inverse of encoding: for every object all
of whose nodes are instances of types registered in the exact-type
encoder registry, `decode(encode(x))` succeeds and returns `x`, every
serialized field restored, nested documents included. -/
theorem c8_decode_encode_roundtrip (x : PyObj) (h : registeredObj x = true) :
    (encodeObj x).bind decodeObj = Except.ok x :=
  roundtrip_obj_aux x h

/-- Witness for C8 at a concrete two-level object graph. -/
theorem c8_decode_encode_roundtrip_witness :
    registeredObj sampleObj = true ∧
    (encodeObj sampleObj).bind decodeObj = Except.ok sampleObj :=
  ⟨by decide, c8_decode_encode_roundtrip sampleObj (by decide)⟩

end AxJsonStore
